import Mathlib

/-!
Shallow embedding of chisel_gui_manager.py: a GUI supervisor for a single
external tunnel-client process, with a persisted store of connection
profiles.  Pure data is embedded as Lean structures; the stateful methods
of MainWindow are embedded as explicit state-passing functions on a
MainWindowState record that also return the list of externally observable
actions (process terminate and wait, spawn, dialog, status label, config
save) the method performs.  Filesystem effects of load_config and
save_config are embedded as functions of the observable file condition.
-/

namespace ChiselGuiManager

/-- Embeds class Connection (chisel_gui_manager.py lines 62 to 78): a
profile with a name, an endpoint url and a raw arguments string. -/
structure Connection where
  name : String
  url : String
  arguments : String
deriving DecidableEq

/-- Embeds the settings dict persisted under the key settings: the two
string-valued fields startup and shutoff. -/
structure Settings where
  startup : String
  shutoff : String
deriving DecidableEq

/-- Embeds the full persisted store written by save_all (lines 517 to
524): the connections list and the settings. -/
structure ConfigData where
  connections : List Connection
  settings : Settings
deriving DecidableEq

/-- The default store returned by load_config when the file is missing
(lines 44 to 51). -/
def default_config : ConfigData :=
  { connections := [], settings := { startup := "When logged in", shutoff := "On log off" } }

/-- Observable condition of the backing config file when load_config runs:
the file is missing (os.path.exists is false), present but with content
json.load cannot parse, or present with content parsing to a store. -/
inductive FileReadResult where
  | missing
  | malformed
  | wellFormed (d : ConfigData)
deriving DecidableEq

/-- Embeds load_config (lines 42 to 53).  If the file does not exist, the
default store is returned.  Otherwise json.load is called on the content;
on malformed content json.load raises JSONDecodeError, and load_config
has no try or except around it, so the error propagates to the caller:
embedded as Except.error. -/
def load_config : FileReadResult → Except Unit ConfigData
  | FileReadResult.missing => Except.ok default_config
  | FileReadResult.malformed => Except.error ()
  | FileReadResult.wellFormed d => Except.ok d

/-- Observable state of the backing config file as seen by a concurrent
reader or after a crash: either some full serialized store, or the
truncated (partially written) file that exists between the open in write
mode and the completion of json.dump. -/
inductive FileObs where
  | full (d : ConfigData)
  | truncated
deriving DecidableEq

/-- Embeds save_config (lines 56 to 59) as the sequence of file states a
reader can observe.  The code opens CONFIG_FILE in mode w, which
truncates the file in place, and then json.dump streams the serialized
store into it; there is no temporary file and no rename.  All
intermediate partially-written contents are collapsed into the single
observation FileObs.truncated, which already suffices to decide
atomicity. -/
def save_config_trace (old : FileObs) (d : ConfigData) : List FileObs :=
  [old, FileObs.truncated, FileObs.full d]

/-- Modelled from the spec: atomic-from-the-reader-perspective
replacement means every observable file state during the save is either
the old content or the new content, never anything in between. -/
def atomic_replace (trace : List FileObs) (old new : FileObs) : Prop :=
  ∀ s ∈ trace, s = old ∨ s = new

/-- Embeds a subprocess.Popen handle: the argv it was started with and
whether the process is currently alive (poll() returning None). -/
structure ProcHandle where
  cmd : List String
  alive : Bool
deriving DecidableEq

/-- The externally observable actions a MainWindow method performs:
terminate() followed by wait() on a process, Popen spawn of an argv,
the critical dialog shown when spawn raises, setting the status label
text, and writing the config file via save_all. -/
inductive Event where
  | terminate_wait (cmd : List String)
  | spawn (cmd : List String)
  | spawn_error
  | set_status (text : String)
  | save (data : ConfigData)
deriving DecidableEq

/-- Embeds the mutable state of MainWindow that the supervisor logic
touches: the in-memory connections list, the settings dict, the active
connection index (line 229) and the active process handle (line 228). -/
structure MainWindowState where
  connections : List Connection
  settings : Settings
  active_connection_index : Option Nat
  active_process : Option ProcHandle
deriving DecidableEq

/-- Embeds MainWindow.__init__ (lines 222 to 229): connections and
settings come from the loaded config; no process and no active index. -/
def init_state (cfg : ConfigData) : MainWindowState :=
  { connections := cfg.connections, settings := cfg.settings,
    active_connection_index := none, active_process := none }

/-- Helper for py_split: walks the characters, accumulating the current
token in reverse; whitespace ends the current token (if nonempty) and is
otherwise skipped. -/
def py_split_aux : List Char → List Char → List String
  | [], acc => if acc.isEmpty then [] else [String.mk acc.reverse]
  | c :: cs, acc =>
    if c.isWhitespace then
      if acc.isEmpty then py_split_aux cs []
      else String.mk acc.reverse :: py_split_aux cs []
    else py_split_aux cs (c :: acc)

/-- Embeds the Python call s.split() with no separator argument (line
443): the string is split on maximal runs of whitespace, with no empty
tokens and no quote handling of any kind. -/
def py_split (s : String) : List String :=
  py_split_aux s.toList []

/-- Embeds the argv construction in start_chisel (lines 438 to 444):
cmd = [chisel, client, conn.url] extended with conn.arguments.split(). -/
def build_cmd (conn : Connection) : List String :=
  ["chisel", "client", conn.url] ++ py_split conn.arguments

/-- Embeds start_chisel (lines 436 to 457).  The argv is built, then
subprocess.Popen is attempted; spawn_ok says whether Popen returns a
handle or raises.  On success the handle is stored in active_process; on
an exception a critical dialog is shown and both active_process and
active_connection_index are cleared. -/
def start_chisel (spawn_ok : Bool) (conn : Connection) (st : MainWindowState) :
    MainWindowState × List Event :=
  let cmd := build_cmd conn
  if spawn_ok then
    ({ st with active_process := some { cmd := cmd, alive := true } }, [Event.spawn cmd])
  else
    ({ st with active_process := none, active_connection_index := none }, [Event.spawn_error])

/-- Embeds stop_chisel_process (lines 459 to 465): if a process handle is
held and poll() is None (the process is alive), terminate() and wait()
are called; in every case active_process is then set to None. -/
def stop_chisel_process (st : MainWindowState) : MainWindowState × List Event :=
  match st.active_process with
  | some p =>
    if p.alive then ({ st with active_process := none }, [Event.terminate_wait p.cmd])
    else ({ st with active_process := none }, [])
  | none => ({ st with active_process := none }, [])

/-- Embeds the first block of connect_connection (lines 416 to 418): if
some other connection is active, stop its process and clear the active
index. -/
def connect_phase1 (index : Nat) (st : MainWindowState) : MainWindowState × List Event :=
  if st.active_connection_index ≠ none ∧ st.active_connection_index ≠ some index then
    let r := stop_chisel_process st
    ({ r.1 with active_connection_index := none }, r.2)
  else (st, [])

/-- Embeds connect_connection (lines 410 to 425).  After the first block,
if the requested index is not already the active one, the active index is
set and start_chisel is called on self.connections[index]; when the index
is out of range that subscript raises IndexError, embedded as none
(the method aborts without reaching Popen). -/
def connect_connection (spawn_ok : Bool) (index : Nat) (st : MainWindowState) :
    Option (MainWindowState × List Event) :=
  let r1 := connect_phase1 index st
  if r1.1.active_connection_index ≠ some index then
    match r1.1.connections[index]? with
    | some conn =>
      let r2 := start_chisel spawn_ok conn
        { r1.1 with active_connection_index := some index }
      some (r2.1, r1.2 ++ r2.2)
    | none => none
  else some (r1.1, r1.2)

/-- Embeds disconnect_connection (lines 427 to 434): only when the given
index is the active one, the process is stopped and the active index is
cleared. -/
def disconnect_connection (index : Nat) (st : MainWindowState) : MainWindowState × List Event :=
  if st.active_connection_index = some index then
    let r := stop_chisel_process st
    ({ r.1 with active_connection_index := none }, r.2)
  else (st, [])

/-- Embeds delete_connection (lines 386 to 391): when 0 <= index <
len(connections) the connection at index is popped and save_all writes
the updated store; otherwise nothing at all happens.  The active index
and process handle are never touched. -/
def delete_connection (index : Int) (st : MainWindowState) : MainWindowState × List Event :=
  if 0 ≤ index ∧ index < (st.connections.length : Int) then
    let conns := st.connections.eraseIdx index.toNat
    ({ st with connections := conns },
      [Event.save { connections := conns, settings := st.settings }])
  else (st, [])

/-- Embeds update_connection_status (lines 467 to 488), the periodic
timer tick.  With an active index and a held process: if poll() is None
the green connected label is shown (self.connections[index] can raise
IndexError when the index is stale, embedded as none); if the process has
exited, stop_chisel_process runs (no terminate, since poll is not None),
the active index is cleared, and control falls through to the red Not
Connected label.  Without an active pair only the red label is set. -/
def update_connection_status (st : MainWindowState) :
    Option (MainWindowState × List Event) :=
  match st.active_connection_index, st.active_process with
  | some i, some p =>
    if p.alive then
      match st.connections[i]? with
      | some c => some (st, [Event.set_status ("Connected to " ++ c.name)])
      | none => none
    else
      let r := stop_chisel_process st
      some ({ r.1 with active_connection_index := none },
        r.2 ++ [Event.set_status ("Not Connected")])
  | _, _ => some (st, [Event.set_status ("Not Connected")])

/-- Embeds update_buttons_state (lines 366 to 384) as the pure projection
it computes: for each of the n connection rows, the enabled flags of the
(connect, disconnect) button pair, as a function of the active index
only. -/
def update_buttons_state (active : Option Nat) (n : Nat) : List (Bool × Bool) :=
  (List.range n).map (fun i =>
    match active with
    | none => (true, false)
    | some a => if i = a then (false, true) else (true, false))

/-- Models the supervised external process exiting on its own (a crash):
poll() stops returning None.  This is an environment event, not a method
of MainWindow; it changes no field of the window state other than the
liveness of the held handle. -/
def crash_active (st : MainWindowState) : MainWindowState :=
  { st with active_process := st.active_process.map (fun p => { p with alive := false }) }

/-- States of MainWindow reachable from startup by the public operations:
connect (including the spawn-failure outcome), disconnect, delete, the
liveness timer tick, and an external crash of the supervised process.
The Option-valued operations contribute a step only when they complete
without raising. -/
inductive Reachable : MainWindowState → Prop where
  | init (cfg : ConfigData) : Reachable (init_state cfg)
  | connect {st st' : MainWindowState} {ev : List Event} (ok : Bool) (i : Nat) :
      Reachable st → connect_connection ok i st = some (st', ev) → Reachable st'
  | disconnect {st : MainWindowState} (i : Nat) :
      Reachable st → Reachable (disconnect_connection i st).1
  | delete {st : MainWindowState} (i : Int) :
      Reachable st → Reachable (delete_connection i st).1
  | tick {st st' : MainWindowState} {ev : List Event} :
      Reachable st → update_connection_status st = some (st', ev) → Reachable st'
  | crash {st : MainWindowState} :
      Reachable st → Reachable (crash_active st)

/-! Concrete profiles and states used to instantiate the theorems. -/

/-- A sample profile named home. -/
def home : Connection :=
  { name := "home", url := "wss://h.example:9000", arguments := "socks" }

/-- A sample profile named work. -/
def work : Connection :=
  { name := "work", url := "wss://w.example:9001", arguments := "socks 8080" }

/-- A window state with profiles home and work in which home is the
active connection and its process is alive. -/
def st_two_active0 : MainWindowState :=
  { connections := [home, work], settings := default_config.settings,
    active_connection_index := some 0,
    active_process := some { cmd := build_cmd home, alive := true } }

/-- A window state in which home is the only profile, it is the active
connection, and its process is alive. -/
def st_home_active : MainWindowState :=
  { connections := [home], settings := default_config.settings,
    active_connection_index := some 0,
    active_process := some { cmd := build_cmd home, alive := true } }

/-- The state st_two_active0 after the active process has died on its
own: the handle is still held but poll no longer returns None. -/
def st_two_dead0 : MainWindowState :=
  { st_two_active0 with
      active_process := some { cmd := build_cmd home, alive := false } }

/-! Helper lemmas shared by several claim proofs. -/

/-- The state component of stop_chisel_process always equals the input
state with the process handle cleared, whatever the poll outcome. -/
lemma stop_chisel_process_fst (st : MainWindowState) :
    (stop_chisel_process st).1 = { st with active_process := none } := by
  unfold stop_chisel_process
  rcases hp : st.active_process with _ | p
  case _ => rfl
  case _ =>
    by_cases ha : p.alive
    case _ => simp [ha]
    case _ => simp [ha]

/-- The state component of the first block of connect_connection is
either the unchanged input state or the input state with both the active
index and the process handle cleared. -/
lemma connect_phase1_fst_cases (i : Nat) (st : MainWindowState) :
    (connect_phase1 i st).1 = st ∨
    (connect_phase1 i st).1 =
      { st with active_connection_index := none, active_process := none } := by
  unfold connect_phase1
  by_cases h : st.active_connection_index ≠ none ∧ st.active_connection_index ≠ some i
  case _ =>
    right
    rw [if_pos h]
    simp [stop_chisel_process_fst]
  case _ =>
    left
    rw [if_neg h]

/-- Neither block of connect_connection changes the connections list or
the settings. -/
lemma connect_phase1_fields (i : Nat) (st : MainWindowState) :
    (connect_phase1 i st).1.connections = st.connections ∧
    (connect_phase1 i st).1.settings = st.settings := by
  rcases connect_phase1_fst_cases i st with h | h
  case _ => rw [h]; exact ⟨rfl, rfl⟩
  case _ => rw [h]; exact ⟨rfl, rfl⟩

/-- When the held process has already exited (poll not None),
stop_chisel_process only clears the handle: no terminate, no wait. -/
lemma stop_chisel_process_dead (st : MainWindowState) (p : ProcHandle)
    (h : st.active_process = some p) (ha : p.alive = false) :
    stop_chisel_process st = ({ st with active_process := none }, []) := by
  unfold stop_chisel_process
  rw [h]
  simp [ha]

/-- When the held process is alive (poll returns None),
stop_chisel_process performs exactly one terminate-and-wait on it and
clears the handle. -/
lemma stop_chisel_process_alive (st : MainWindowState) (p : ProcHandle)
    (h : st.active_process = some p) (ha : p.alive = true) :
    stop_chisel_process st =
      ({ st with active_process := none }, [Event.terminate_wait p.cmd]) := by
  unfold stop_chisel_process
  rw [h]
  simp [ha]

/-- Claim C2 counterexample: on a present file whose content json.load
cannot parse, load_config propagates the parse error; it does not return
the default store. -/
theorem load_config_malformed_cex :
    load_config FileReadResult.malformed = Except.error () ∧
    load_config FileReadResult.malformed ≠ Except.ok default_config :=
  ⟨rfl, fun h => Except.noConfusion h⟩

/-- Claim C2 amended: load_config returns the default store
(connections empty, startup When logged in, shutoff On log off) exactly
when the backing file is missing; a present well-formed file yields its
parsed content, and malformed content makes load_config fail with the
propagated parse error rather than the default. -/
theorem load_config_spec :
    load_config FileReadResult.missing = Except.ok default_config ∧
    (∀ d, load_config (FileReadResult.wellFormed d) = Except.ok d) ∧
    load_config FileReadResult.malformed = Except.error () :=
  ⟨rfl, fun _ => rfl, rfl⟩

/-- Claim C3 counterexample: a save of a one-profile store over the
default store exposes an observable file state (the truncated file
between the open in write mode and the completed dump) that is neither
the old nor the new content, so the replacement is not atomic. -/
theorem save_config_not_atomic_cex :
    ¬ atomic_replace
        (save_config_trace (FileObs.full default_config)
          { connections := [home], settings := default_config.settings })
        (FileObs.full default_config)
        (FileObs.full { connections := [home], settings := default_config.settings }) := by
  intro h
  rcases h FileObs.truncated (by simp [save_config_trace]) with h1 | h1
  case _ => exact FileObs.noConfusion h1
  case _ => exact FileObs.noConfusion h1

/-- Claim C3 amended: save_config does write the full new content and
fully supersede the old file (the last observable state is the new
store), but it is not atomic from the reader perspective: it truncates
config.json in place and then writes into it, so a concurrent reader or
a crash mid-write can observe the truncated half-written file. -/
theorem save_config_trace_spec (o d : ConfigData) :
    (save_config_trace (FileObs.full o) d).getLast? = some (FileObs.full d) ∧
    FileObs.truncated ∈ save_config_trace (FileObs.full o) d ∧
    ¬ atomic_replace (save_config_trace (FileObs.full o) d)
        (FileObs.full o) (FileObs.full d) := by
  refine ⟨rfl, by simp [save_config_trace], ?_⟩
  intro h
  rcases h FileObs.truncated (by simp [save_config_trace]) with h1 | h1
  case _ => exact FileObs.noConfusion h1
  case _ => exact FileObs.noConfusion h1

/-- Claim C7: the spawned argv is exactly chisel, client, the profile
url, then the arguments string split on whitespace runs; splitting has
no quoting support, so a quoted multi-word value is broken into several
tokens. -/
theorem start_chisel_argv_spec (spawn_ok : Bool) (conn : Connection) (st : MainWindowState) :
    (spawn_ok = true →
      start_chisel spawn_ok conn st =
        ({ st with active_process := some { cmd := build_cmd conn, alive := true } },
          [Event.spawn (build_cmd conn)])) ∧
    build_cmd conn = ["chisel", "client", conn.url] ++ py_split conn.arguments ∧
    py_split ("--auth \"alice bob\"") = ["--auth", "\"alice", "bob\""] := by
  refine ⟨?_, rfl, by decide⟩
  intro h
  subst h
  rfl

/-- Claim C7 witness instantiation at the work profile. -/
theorem start_chisel_argv_spec_witness :
    start_chisel true work st_home_active =
      ({ st_home_active with
          active_process := some { cmd := build_cmd work, alive := true } },
        [Event.spawn (build_cmd work)]) :=
  (start_chisel_argv_spec true work st_home_active).1 rfl

/-- Claim C10: delete_connection with an index outside the stored range
(negative or at least the list length) changes nothing at all: the
connections list, the settings, the active index and the process handle
are untouched, and no event (in particular no config save) happens. -/
theorem delete_connection_out_of_range (st : MainWindowState) (index : Int)
    (h : ¬ (0 ≤ index ∧ index < (st.connections.length : Int))) :
    delete_connection index st = (st, []) := by
  unfold delete_connection
  simp only [h, if_neg, not_false_eq_true]

/-- Claim C10 witness: deleting index -1 and index 5 of a two-profile
store are both complete no-ops. -/
theorem delete_connection_out_of_range_witness :
    delete_connection (-1) st_two_active0 = (st_two_active0, []) :=
  delete_connection_out_of_range st_two_active0 (-1) (by decide)

/-- Claim C1: evaluating delete_connection at the failing input.  With
home the only profile, active and running, delete_connection 0 removes
the profile and saves the shrunken store, but performs no disconnect:
no terminate event and no Disconnected status are emitted, the process
handle is still held and the active index still says 0.  The very next
liveness tick then raises IndexError (embedded as none), because the
active index points into the now-empty connections list. -/
theorem delete_active_connection_bug :
    delete_connection 0 st_home_active =
      ({ st_home_active with connections := [] },
        [Event.save { connections := [], settings := default_config.settings }]) ∧
    (delete_connection 0 st_home_active).1.active_process =
      some { cmd := build_cmd home, alive := true } ∧
    (delete_connection 0 st_home_active).1.active_connection_index = some 0 ∧
    update_connection_status (delete_connection 0 st_home_active).1 = none := by
  decide

/-- Claim C4: when a profile is active and the liveness tick polls its
process as exited, update_connection_status clears both the active index
and the process handle and sets the status label to Not Connected; the
returned event list contains no terminate, no spawn and no spawn-error
dialog. -/
theorem update_connection_status_exited (st : MainWindowState) (i : Nat) (p : ProcHandle)
    (h1 : st.active_connection_index = some i) (h2 : st.active_process = some p)
    (h3 : p.alive = false) :
    update_connection_status st =
      some ({ st with active_connection_index := none, active_process := none },
        [Event.set_status ("Not Connected")]) := by
  unfold update_connection_status
  rw [h1, h2]
  simp [h3, stop_chisel_process_dead st p h2 h3]

/-- Claim C4 witness: the tick on st_two_dead0, where the active home
process has crashed, goes to the idle state and the red label. -/
theorem update_connection_status_exited_witness :
    update_connection_status st_two_dead0 =
      some ({ st_two_dead0 with
                active_connection_index := none,
                active_process := none },
        [Event.set_status ("Not Connected")]) :=
  update_connection_status_exited st_two_dead0 0
    { cmd := build_cmd home, alive := false } rfl rfl rfl

/-- Claim C6: calling connect_connection on the index that is already
active is a no-op: neither block fires, so there is no terminate, no
spawn, and the state is returned unchanged. -/
theorem connect_connection_already_active (ok : Bool) (st : MainWindowState)
    (i : Nat) (p : ProcHandle)
    (h1 : st.active_connection_index = some i) (_h2 : st.active_process = some p) :
    connect_connection ok i st = some (st, []) := by
  unfold connect_connection connect_phase1
  simp [h1]

/-- Claim C6 witness: connecting index 0 of st_two_active0, which is
already the running connection, changes nothing and emits nothing. -/
theorem connect_connection_already_active_witness :
    connect_connection true 0 st_two_active0 = some (st_two_active0, []) :=
  connect_connection_already_active true st_two_active0 0
    { cmd := build_cmd home, alive := true } rfl rfl

/-- Claim C5: with profile a active and running, connect_connection on a
different index b first runs the stop block, whose resulting state holds
no process at all (so the two processes are never simultaneously held),
and then spawns b; the full event list is exactly one terminate-and-wait
of the old process followed by exactly one spawn of the new argv. -/
theorem connect_connection_swap (st : MainWindowState) (a b : Nat)
    (pA : ProcHandle) (cB : Connection)
    (h1 : st.active_connection_index = some a) (h2 : st.active_process = some pA)
    (h3 : pA.alive = true) (hab : a ≠ b) (hb : st.connections[b]? = some cB) :
    connect_phase1 b st =
      ({ st with active_connection_index := none, active_process := none },
        [Event.terminate_wait pA.cmd]) ∧
    connect_connection true b st =
      some ({ st with
                active_connection_index := some b,
                active_process := some { cmd := build_cmd cB, alive := true } },
        [Event.terminate_wait pA.cmd, Event.spawn (build_cmd cB)]) := by
  have hph : connect_phase1 b st =
      ({ st with active_connection_index := none, active_process := none },
        [Event.terminate_wait pA.cmd]) := by
    unfold connect_phase1
    rw [if_pos ⟨by simp [h1], by simp [h1, hab]⟩]
    simp [stop_chisel_process_alive st pA h2 h3]
  refine ⟨hph, ?_⟩
  unfold connect_connection
  rw [hph]
  simp [hb, start_chisel]

/-- Claim C5 witness: swapping from running home (index 0) to work
(index 1) in st_two_active0 terminates the home process, passes through
the processless intermediate state, and spawns the work argv. -/
theorem connect_connection_swap_witness :
    connect_phase1 1 st_two_active0 =
      ({ st_two_active0 with
           active_connection_index := none,
           active_process := none },
        [Event.terminate_wait (build_cmd home)]) ∧
    connect_connection true 1 st_two_active0 =
      some ({ st_two_active0 with
                active_connection_index := some 1,
                active_process := some { cmd := build_cmd work, alive := true } },
        [Event.terminate_wait (build_cmd home), Event.spawn (build_cmd work)]) :=
  connect_connection_swap st_two_active0 0 1
    { cmd := build_cmd home, alive := true } work rfl rfl rfl
    (by decide) (by decide)

/-- The button pair computed for row i: the disconnect flag is set
exactly when i is the active index, the connect flag exactly
otherwise. -/
lemma update_buttons_state_at (active : Option Nat) (n i : Nat) (bi : Bool × Bool)
    (h : (update_buttons_state active n)[i]? = some bi) :
    (bi.2 = true ↔ active = some i) ∧ (bi.1 = true ↔ active ≠ some i) := by
  unfold update_buttons_state at h
  rw [List.getElem?_map] at h
  by_cases hi : i < n
  case pos =>
    rw [List.getElem?_range hi] at h
    simp only [Option.map_some'] at h
    rcases active with _ | a
    case none =>
      simp only [Option.some.injEq] at h
      subst h
      simp
    case some =>
      by_cases hia : i = a
      case pos =>
        subst hia
        simp only [if_pos rfl, Option.some.injEq] at h
        subst h
        simp
      case neg =>
        simp only [if_neg hia, Option.some.injEq] at h
        subst h
        simp [Ne.symm hia, fun hh : a = i => hia hh.symm]
  case neg =>
    rw [List.getElem?_eq_none (by simpa using Nat.le_of_not_lt hi)] at h
    simp at h

/-- Claim C9: the projection computed by update_buttons_state, a pure
function of the active index and the row count, enables the disconnect
affordance of row i exactly when i is the active index (hence at most
one row has it enabled: two enabled disconnect rows coincide) and the
connect affordance exactly when i is not the active index. -/
theorem update_buttons_state_spec (active : Option Nat) (n i j : Nat) (bi bj : Bool × Bool)
    (hi : (update_buttons_state active n)[i]? = some bi)
    (hj : (update_buttons_state active n)[j]? = some bj) :
    (bi.2 = true ↔ active = some i) ∧ (bi.1 = true ↔ active ≠ some i) ∧
    (bi.2 = true → bj.2 = true → i = j) := by
  obtain ⟨hi2, hi1⟩ := update_buttons_state_at active n i bi hi
  obtain ⟨hj2, _⟩ := update_buttons_state_at active n j bj hj
  refine ⟨hi2, hi1, ?_⟩
  intro d1 d2
  have ha : active = some i := hi2.mp d1
  have hb : active = some j := hj2.mp d2
  rw [ha] at hb
  exact Option.some.inj hb

/-- Claim C9 witness: with two rows and row 0 active, row 0 reads
(connect disabled, disconnect enabled). -/
theorem update_buttons_state_spec_witness :
    (((false, true) : Bool × Bool).2 = true ↔ (some 0 : Option Nat) = some 0) ∧
    (((false, true) : Bool × Bool).1 = true ↔ (some 0 : Option Nat) ≠ some 0) ∧
    (((false, true) : Bool × Bool).2 = true → ((false, true) : Bool × Bool).2 = true →
      (0 : Nat) = 0) :=
  update_buttons_state_spec (some 0) 2 0 0 (false, true) (false, true)
    (by decide) (by decide)

/-! Preservation of the active-pair invariant by every public
operation, used for claim C8. -/

/-- A completed connect_connection leaves the active index and the
process handle either both set or both clear. -/
lemma connect_connection_inv {ok : Bool} {i : Nat} {st st' : MainWindowState}
    {ev : List Event}
    (hc : connect_connection ok i st = some (st', ev))
    (hinv : st.active_connection_index = none ↔ st.active_process = none) :
    st'.active_connection_index = none ↔ st'.active_process = none := by
  rcases hph : connect_phase1 i st with ⟨stm, evm⟩
  have hstm : stm = st ∨
      stm = { st with active_connection_index := none, active_process := none } := by
    rcases connect_phase1_fst_cases i st with hx | hx
    case _ => left; rw [hph] at hx; exact hx
    case _ => right; rw [hph] at hx; exact hx
  unfold connect_connection at hc
  simp only [hph] at hc
  by_cases hidx : stm.active_connection_index ≠ some i
  case pos =>
    rw [if_pos hidx] at hc
    rcases hcon : stm.connections[i]? with _ | conn
    case _ => rw [hcon] at hc; exact absurd hc (by simp)
    case _ =>
      rw [hcon] at hc
      simp only [Option.some.injEq, Prod.mk.injEq] at hc
      obtain ⟨hst', _⟩ := hc
      subst hst'
      cases ok
      case false => simp [start_chisel]
      case true => simp [start_chisel]
  case neg =>
    rw [if_neg hidx] at hc
    simp only [Option.some.injEq, Prod.mk.injEq] at hc
    obtain ⟨hst', _⟩ := hc
    subst hst'
    rcases hstm with h | h
    case _ => rw [h]; exact hinv
    case _ => rw [h]; simp

/-- disconnect_connection leaves the active index and the process handle
either both set or both clear. -/
lemma disconnect_connection_inv (i : Nat) (st : MainWindowState)
    (hinv : st.active_connection_index = none ↔ st.active_process = none) :
    (disconnect_connection i st).1.active_connection_index = none ↔
      (disconnect_connection i st).1.active_process = none := by
  unfold disconnect_connection
  by_cases h : st.active_connection_index = some i
  case pos =>
    rw [if_pos h]
    simp [stop_chisel_process_fst]
  case neg =>
    rw [if_neg h]
    exact hinv

/-- delete_connection never touches the active index or the process
handle. -/
lemma delete_connection_active_fields (i : Int) (st : MainWindowState) :
    (delete_connection i st).1.active_connection_index = st.active_connection_index ∧
    (delete_connection i st).1.active_process = st.active_process := by
  unfold delete_connection
  by_cases h : 0 ≤ i ∧ i < (st.connections.length : Int)
  case pos => rw [if_pos h]; exact ⟨rfl, rfl⟩
  case neg => rw [if_neg h]; exact ⟨rfl, rfl⟩

/-- A completed liveness tick leaves the active index and the process
handle either both set or both clear. -/
lemma update_connection_status_inv {st st' : MainWindowState} {ev : List Event}
    (hc : update_connection_status st = some (st', ev))
    (hinv : st.active_connection_index = none ↔ st.active_process = none) :
    st'.active_connection_index = none ↔ st'.active_process = none := by
  unfold update_connection_status at hc
  rcases hidx : st.active_connection_index with _ | i
  case none =>
    rw [hidx] at hc
    simp only [Option.some.injEq, Prod.mk.injEq] at hc
    obtain ⟨h1, _⟩ := hc
    rw [← h1]
    exact hinv
  case some =>
    rcases hp : st.active_process with _ | p
    case none =>
      rw [hidx, hp] at hc
      simp only [Option.some.injEq, Prod.mk.injEq] at hc
      obtain ⟨h1, _⟩ := hc
      rw [← h1]
      exact hinv
    case some =>
      rw [hidx, hp] at hc
      by_cases ha : p.alive = true
      case pos =>
        simp only [ha, if_true] at hc
        rcases hcon : st.connections[i]? with _ | c
        case _ => rw [hcon] at hc; exact absurd hc (by simp)
        case _ =>
          rw [hcon] at hc
          simp only [Option.some.injEq, Prod.mk.injEq] at hc
          obtain ⟨h1, _⟩ := hc
          rw [← h1]
          exact hinv
      case neg =>
        simp only [Bool.not_eq_true] at ha
        simp only [ha, if_false, Bool.false_eq_true, stop_chisel_process_fst,
          Option.some.injEq, Prod.mk.injEq] at hc
        obtain ⟨h1, _⟩ := hc
        rw [← h1]
        simp

/-- An external crash of the supervised process changes neither the
active index nor whether a handle is held. -/
lemma crash_active_inv (st : MainWindowState)
    (hinv : st.active_connection_index = none ↔ st.active_process = none) :
    (crash_active st).active_connection_index = none ↔
      (crash_active st).active_process = none := by
  unfold crash_active
  simpa [Option.map_eq_none'] using hinv

/-- Claim C8: in every state reachable by any sequence of the public
operations (connect with either spawn outcome, disconnect, delete, the
liveness tick, an external crash), the active index is None exactly when
no process handle is held; and the held handle, when present, is unique
(the state has a single process slot). -/
theorem reachable_active_iff_process (st : MainWindowState) (h : Reachable st) :
    (st.active_connection_index = none ↔ st.active_process = none) ∧
    (∀ p q : ProcHandle, st.active_process = some p → st.active_process = some q → p = q) := by
  refine ⟨?_, ?_⟩
  case _ =>
    induction h with
    | init cfg => simp [init_state]
    | connect ok i hst hc ih => exact connect_connection_inv hc ih
    | disconnect i hst ih => exact disconnect_connection_inv i _ ih
    | delete i hst ih =>
        rw [(delete_connection_active_fields i _).1, (delete_connection_active_fields i _).2]
        exact ih
    | tick hst hc ih => exact update_connection_status_inv hc ih
    | crash hst ih => exact crash_active_inv _ ih
  case _ =>
    intro p q hp hq
    rw [hp] at hq
    exact Option.some.inj hq

/-- Claim C8 witness: the state reached from a fresh one-profile store
by a successful connect of index 0 satisfies the invariant; here both
the index and the handle are set. -/
theorem reachable_active_iff_process_witness :
    st_home_active.active_connection_index = none ↔
      st_home_active.active_process = none :=
  (reachable_active_iff_process st_home_active
    (@Reachable.connect
      (init_state { connections := [home], settings := default_config.settings })
      st_home_active [Event.spawn (build_cmd home)] true 0
      (Reachable.init { connections := [home], settings := default_config.settings })
      (by decide))).1

end ChiselGuiManager
